import Mathlib

/-!
Verification of MeshToBodyBatch005.py against its specification.

The script is orchestration glue over an external CAD kernel (FreeCAD).
We embed it shallowly:
* mesh geometry state is abstracted to the five observables the script
  queries (`isSolid`, `hasNonManifolds`, `hasSelfIntersections`,
  `CountPoints`, `CountFacets`);
* every external kernel call the script makes (repair methods, shape
  construction, recompute, …) is a parameter of the embedding, packaged in
  an environment record; a fallible call has type `… → Except Unit …`
  (`Except.error` models the call raising; the mesh state is then taken as
  unchanged, matching the script's catch-and-continue handling);
* the document is a list of named objects; transactions are recorded as an
  event trace (undo semantics of an aborted transaction are outside the
  script's own code and are not modelled).
-/

/-- Observable state of a mesh, as queried by the script. -/
structure MeshState where
  solid : Bool
  nonManifolds : Bool
  selfIntersections : Bool
  points : Nat
  facets : Nat
deriving DecidableEq, Repr

/-- Behaviour of the external mesh kernel calls used by
`attempt_comprehensive_manual_repair` and `evaluate_mesh_automated`.
`queryRaises` models the predicate queries in `evaluate_mesh_automated`
raising (its outer `except`); `initRaises` models the `Topology` access /
`Mesh.Mesh` construction at the top of the repair function raising (its
outer `except`). -/
structure Env where
  queryRaises : Bool
  initRaises : Bool
  fixSelfIntersections : MeshState → Except Unit MeshState
  harmonizeNormals : MeshState → Except Unit MeshState
  hasMethod : String → Bool
  removeDuplicatedPoints : MeshState → Except Unit MeshState
  removeDuplicatedFacets : MeshState → Except Unit MeshState
  removeInvalidPoints : MeshState → Except Unit MeshState
  removeNonManifolds : MeshState → Except Unit MeshState
  removeFoldsOnSurface : MeshState → Except Unit MeshState
  fillupHoles : Nat → MeshState → Except Unit MeshState
  recompute : MeshState → MeshState

def fixSelfIntersectionsLabel : String := "Fix self-intersections (priority)"

def harmonizeLabel : String := "Harmonize Normals (after self-intersection fix)"

def fillHolesLabel : String := "Fill small holes"

/-- The `repair_methods` table (source lines 63-69). -/
def repairMethods : List (String × String) :=
  [("removeDuplicatedPoints", "Remove duplicate points"),
   ("removeDuplicatedFacets", "Remove duplicate facets"),
   ("removeInvalidPoints", "Remove invalid points"),
   ("removeNonManifolds", "Remove non-manifolds"),
   ("removeFoldsOnSurface", "Remove surface folds")]

/-- `getattr(mutable_mesh, method_name)` for the five general repair methods. -/
def methodOf (env : Env) : String → (MeshState → Except Unit MeshState)
  | "removeDuplicatedPoints" => env.removeDuplicatedPoints
  | "removeDuplicatedFacets" => env.removeDuplicatedFacets
  | "removeInvalidPoints" => env.removeInvalidPoints
  | "removeNonManifolds" => env.removeNonManifolds
  | "removeFoldsOnSurface" => env.removeFoldsOnSurface
  | _ => fun m => Except.ok m

/-- Priority self-intersection pass (source lines 30-58): if the mesh has
self-intersections, run `fixSelfIntersections` then `harmonizeNormals`
inside one `try`; the fixed flag is set only when the internal re-check
finds no self-intersections. Returns (mesh, applied labels, fixed flag). -/
def priorityStage (env : Env) (m : MeshState) : MeshState × List String × Bool :=
  if m.selfIntersections then
    match env.fixSelfIntersections m with
    | Except.error _ => (m, [], false)
    | Except.ok m1 =>
      match env.harmonizeNormals m1 with
      | Except.error _ => (m1, [fixSelfIntersectionsLabel], false)
      | Except.ok m2 =>
        (m2, [fixSelfIntersectionsLabel, harmonizeLabel], !m2.selfIntersections)
  else (m, [], false)

/-- One iteration of the general repair loop (source lines 71-82): skip if
the method is absent, catch-and-skip if it raises, otherwise record its
label. -/
def genStep (env : Env) (st : MeshState × List String) (md : String × String) :
    MeshState × List String :=
  if env.hasMethod md.1 then
    match methodOf env md.1 st.1 with
    | Except.error _ => st
    | Except.ok m2 => (m2, st.2 ++ [md.2])
  else st

/-- The general repair loop over `repairMethods` (source lines 71-82). -/
def generalStage (env : Env) (st : MeshState × List String) : MeshState × List String :=
  repairMethods.foldl (genStep env) st

/-- `fillupHoles(100)` with its own `try` (source lines 85-93). -/
def fillStage (env : Env) (st : MeshState × List String) : MeshState × List String :=
  match env.fillupHoles 100 st.1 with
  | Except.error _ => st
  | Except.ok m2 => (m2, st.2 ++ [fillHolesLabel])

/-- The whole mutable-mesh pipeline: priority pass, general loop, hole
filling. Returns (final mutable mesh, applied labels, fixed flag). -/
def runPipeline (env : Env) (m0 : MeshState) : MeshState × List String × Bool :=
  let p := priorityStage env m0
  let g := fillStage env (generalStage env (p.1, p.2.1))
  (g.1, g.2, p.2.2)

/-- Outcome of `attempt_comprehensive_manual_repair`: return value,
`repairs_applied`, the `self_intersections_fixed_on_mutable` flag, whether
the mutable mesh was written back to the document object, and the mesh
state held by the document object afterwards. -/
structure RepairResult where
  success : Bool
  applied : List String
  siFixed : Bool
  wroteBack : Bool
  docMesh : MeshState
deriving DecidableEq, Repr

/-- The three `recompute()` calls after write-back (source lines 100-102). -/
def recompute3 (env : Env) (m : MeshState) : MeshState :=
  env.recompute (env.recompute (env.recompute m))

/-- `final_has_self_intersections` (source lines 111-113): the fresh query
on the committed mesh, overridden by the negated fixed flag when the mesh
initially had self-intersections. -/
def finalSelfIntersections (initialSI siFixed : Bool) (committed : MeshState) : Bool :=
  if initialSI then !siFixed else committed.selfIntersections

/-- `attempt_comprehensive_manual_repair` (source lines 10-127). -/
def attemptComprehensiveManualRepair (env : Env) (m0 : MeshState) : RepairResult :=
  if env.initRaises then
    { success := false, applied := [], siFixed := false, wroteBack := false, docMesh := m0 }
  else
    let r := runPipeline env m0
    if r.2.1.isEmpty then
      { success := false, applied := r.2.1, siFixed := r.2.2, wroteBack := false, docMesh := m0 }
    else
      let committed := recompute3 env r.1
      let fsi := finalSelfIntersections m0.selfIntersections r.2.2 committed
      { success := committed.solid && !committed.nonManifolds && !fsi,
        applied := r.2.1, siFixed := r.2.2, wroteBack := true, docMesh := committed }

/-- `attempt_mesh_repair` (source lines 131-151): forwards the
comprehensive repair's outcome. Returns (success, document mesh state). -/
def attemptMeshRepair (env : Env) (m0 : MeshState) : Bool × MeshState :=
  let r := attemptComprehensiveManualRepair env m0
  (r.success, r.docMesh)

/-- `evaluate_mesh_automated` (source lines 155-205). Returns the decision
string and the mesh state of the document object afterwards (repair may
have written back). -/
def evaluateMeshAutomated (env : Env) (m : MeshState) : String × MeshState :=
  if env.queryRaises then ("cancel", m)
  else if m.solid && !m.nonManifolds && !m.selfIntersections then ("proceed", m)
  else if m.solid && (m.nonManifolds || m.selfIntersections) then
    let r := attemptMeshRepair env m
    if r.1 then ("proceed", r.2) else ("repair", r.2)
  else ("repair", m)

/-- A document object: name, type tag, and the payloads the script reads
or writes (mesh data, shape data abstracted to an identifier, and the
`BaseFeature` link of a body). -/
structure Obj where
  name : String
  typeId : String
  mesh : Option MeshState
  shape : Option Nat
  baseFeature : Option String
deriving DecidableEq, Repr

/-- A document is its object list, in creation order. -/
abbrev Doc := List Obj

/-- `doc.getObject(name)` — first object with that name. -/
def getObject (doc : Doc) (n : String) : Option Obj :=
  doc.find? (fun o => o.name == n)

/-- `doc.removeObject(name)`. -/
def removeObject (doc : Doc) (n : String) : Doc :=
  doc.filter (fun o => o.name != n)

/-- `doc.addObject(...)` — appended at the end. -/
def addObject (doc : Doc) (o : Obj) : Doc :=
  doc ++ [o]

/-- `mesh_obj.Mesh = m` for the object(s) named `n`. -/
def setMesh (doc : Doc) (n : String) (m : MeshState) : Doc :=
  doc.map (fun o => if o.name == n then { o with mesh := some m } else o)

/-- Behaviour of the external geometry calls used by
`convert_single_mesh`. `makeShape` takes the stitching tolerance (the
script passes 0.1) and the mesh whose topology is converted;
`removeRaises` says whether `doc.removeObject` raises for a given name
during the error-path cleanup (those raises are swallowed by the script). -/
structure ConvEnv where
  env : Env
  makeShape : Rat → MeshState → Except Unit Nat
  makeSolid : Nat → Except Unit Nat
  refine : Nat → Nat
  refinedValid : Nat → Bool
  removeRaises : String → Bool

/-- Transaction events, recorded in order. -/
inductive Txn where
  | opened
  | committed
  | aborted
deriving DecidableEq, Repr

/-- Result of `convert_single_mesh`: final document, the returned
(success, body name) pair, and the transaction events it performed. -/
structure ConvOutcome where
  doc : Doc
  success : Bool
  bodyName : Option String
  txns : List Txn
deriving DecidableEq, Repr

/-- The deterministic names of the intermediates cleaned up on failure
(source lines 311-316). -/
def cleanupNames (bn : String) : List String :=
  [bn ++ "_shape", bn ++ "_solid", bn ++ "_solid_refined", bn ++ "_solid_simple"]

/-- Close the per-item transaction: nothing when the caller owns it. -/
def endTxn (t0 : List Txn) (base : Bool) (t : Txn) : List Txn :=
  t0 ++ (if base then [] else [t])

/-- Best-effort removal of each name in the list: a raising removal is
swallowed and the loop continues. -/
def removeEach (cenv : ConvEnv) (d : Doc) (l : List String) : Doc :=
  l.foldl (fun d2 n => if cenv.removeRaises n then d2 else removeObject d2 n) d

/-- The failure handler of `convert_single_mesh` (source lines 309-328):
filter the four pattern names by existence, best-effort remove each
(a raising removal is swallowed), abort the transaction unless the caller
owns it, return (False, None). -/
def convCleanup (cenv : ConvEnv) (doc : Doc) (bn : String) (t0 : List Txn) (base : Bool) :
    ConvOutcome :=
  let temps := (cleanupNames bn).filter (fun n => (getObject doc n).isSome)
  { doc := removeEach cenv doc temps, success := false, bodyName := none,
    txns := endTxn t0 base Txn.aborted }

/-- The construction part of `convert_single_mesh` after the evaluation
returned proceed (source lines 258-328), acting on the document `doc1`
whose mesh object already carries the post-evaluation mesh state `m2`.
Objects are added before the fallible call that fills their payload, as in
the source, so a failure leaves the named object present for cleanup. The
document-level `recompute()` calls have no observable effect in this
model. -/
def convertProceed (cenv : ConvEnv) (doc1 : Doc) (bn : String) (m2 : MeshState)
    (t0 : List Txn) (base : Bool) : ConvOutcome :=
  match cenv.makeShape (1 / 10 : Rat) m2 with
  | Except.error _ =>
    convCleanup cenv
      (addObject doc1
        { name := bn ++ "_shape", typeId := "Part::Feature",
          mesh := none, shape := none, baseFeature := none }) bn t0 base
  | Except.ok s =>
    let doc2 := addObject doc1
      { name := bn ++ "_shape", typeId := "Part::Feature",
        mesh := none, shape := some s, baseFeature := none }
    match cenv.makeSolid s with
    | Except.error _ =>
      convCleanup cenv
        (addObject doc2
          { name := bn ++ "_solid", typeId := "Part::Feature",
            mesh := none, shape := none, baseFeature := none }) bn t0 base
    | Except.ok sol =>
      let doc3 := addObject doc2
        { name := bn ++ "_solid", typeId := "Part::Feature",
          mesh := none, shape := some sol, baseFeature := none }
      let rv := cenv.refine sol
      let doc4 := addObject doc3
        { name := bn ++ "_solid_refined", typeId := "Part::Refine",
          mesh := none, shape := some rv, baseFeature := none }
      if cenv.refinedValid rv then
        let doc5 := addObject doc4
          { name := bn ++ "_solid_simple", typeId := "Part::Feature",
            mesh := none, shape := some rv, baseFeature := none }
        let doc6 := addObject doc5
          { name := bn ++ "_Body", typeId := "PartDesign::Body",
            mesh := none, shape := some rv, baseFeature := some (bn ++ "_solid_simple") }
        let doc7 := removeObject doc6 (bn ++ "_shape")
        let doc8 := removeObject doc7 (bn ++ "_solid")
        let doc9 := removeObject doc8 (bn ++ "_solid_refined")
        let doc10 := removeObject doc9 bn
        { doc := doc10, success := true, bodyName := some (bn ++ "_Body"),
          txns := endTxn t0 base Txn.committed }
      else
        convCleanup cenv doc4 bn t0 base

/-- `convert_single_mesh` (source lines 239-328): open a transaction
unless the caller owns one, evaluate, bail out (with abort) unless the
verdict is proceed, else run the construction. -/
def convertSingleMesh (cenv : ConvEnv) (doc0 : Doc) (meshName : String) (base : Bool) :
    ConvOutcome :=
  let t0 : List Txn := if base then [] else [Txn.opened]
  match (getObject doc0 meshName).bind Obj.mesh with
  | none =>
    { doc := doc0, success := false, bodyName := none, txns := endTxn t0 base Txn.aborted }
  | some m =>
    let ev := evaluateMeshAutomated cenv.env m
    let doc1 := setMesh doc0 meshName ev.2
    if ev.1 != "proceed" then
      { doc := doc1, success := false, bodyName := none, txns := endTxn t0 base Txn.aborted }
    else
      convertProceed cenv doc1 meshName ev.2 t0 base

/-- `find_all_mesh_objects` (source lines 209-235): objects exposing mesh
data. -/
def findAllMeshObjects (doc : Doc) : List Obj :=
  doc.filter (fun o => o.mesh.isSome)

/-- The statistics record built by `convert_all_document_meshes`. -/
structure RunResults where
  totalMeshes : Nat
  converted : Nat
  failed : Nat
  skipped : Nat
  convertedObjects : List (String × Option String)
  failedObjects : List String
  skippedObjects : List String
deriving DecidableEq, Repr

/-- One iteration of the orchestrator loop (source lines 379-398):
convert with the caller-owns-transaction flag set, then classify by
cross-checking the document: converted on success; otherwise skipped iff
an object with the original name still exists and has TypeId
Mesh::Feature, else failed. -/
def processOne (cenv : ConvEnv) (st : Doc × RunResults) (name : String) : Doc × RunResults :=
  let r := convertSingleMesh cenv st.1 name true
  if r.success then
    (r.doc, { st.2 with
              converted := st.2.converted + 1,
              convertedObjects := st.2.convertedObjects ++ [(name, r.bodyName)] })
  else
    match getObject r.doc name with
    | some o =>
      if o.typeId == "Mesh::Feature" then
        (r.doc, { st.2 with
                  skipped := st.2.skipped + 1,
                  skippedObjects := st.2.skippedObjects ++ [name] })
      else
        (r.doc, { st.2 with
                  failed := st.2.failed + 1,
                  failedObjects := st.2.failedObjects ++ [name] })
    | none =>
      (r.doc, { st.2 with
                failed := st.2.failed + 1,
                failedObjects := st.2.failedObjects ++ [name] })

/-- Per-item behaviour of the batch run: the conversion environment for
item `i`, and whether an unhandled exception escapes while processing item
`i` (any Python call can raise; `convert_single_mesh`'s own handled
failures are part of `step`). -/
structure BatchEnv where
  step : Nat → ConvEnv
  stepRaises : Nat → Bool

/-- The `for` loop of `convert_all_document_meshes` inside its `try`
(source lines 378-398). An unhandled exception at item `i` escapes with
the document state at that point. -/
def batchLoop (benv : BatchEnv) : Nat → Doc → RunResults → List String →
    Except Doc (Doc × RunResults)
  | _, doc, res, [] => Except.ok (doc, res)
  | i, doc, res, n :: rest =>
    if benv.stepRaises i then Except.error doc
    else
      let st := processOne (benv.step i) (doc, res) n
      batchLoop benv (i + 1) st.1 st.2 rest

/-- The zero-count summary returned when the document has no meshes
(source line 349). -/
def zeroResults : RunResults :=
  { totalMeshes := 0, converted := 0, failed := 0, skipped := 0,
    convertedObjects := [], failedObjects := [], skippedObjects := [] }

/-- Outcome of `convert_all_document_meshes`: returned value (`none` for
Python's `None`), final document, transaction events. -/
structure BatchOutcome where
  results : Option RunResults
  finalDoc : Option Doc
  txns : List Txn
deriving DecidableEq, Repr

/-- `convert_all_document_meshes` (source lines 332-445). No active
document: return None. No meshes: return the zero summary before any
transaction is opened. Otherwise open the master transaction, run the
loop, commit on normal completion; on an unhandled exception abort and
return None. -/
def convertAllDocumentMeshes (benv : BatchEnv) (activeDoc : Option Doc) : BatchOutcome :=
  match activeDoc with
  | none => { results := none, finalDoc := none, txns := [] }
  | some doc =>
    let meshes := findAllMeshObjects doc
    if meshes.isEmpty then
      { results := some zeroResults, finalDoc := some doc, txns := [] }
    else
      let init : RunResults :=
        { totalMeshes := meshes.length, converted := 0, failed := 0, skipped := 0,
          convertedObjects := [], failedObjects := [], skippedObjects := [] }
      match batchLoop benv 0 doc init (meshes.map Obj.name) with
      | Except.ok dr =>
        { results := some dr.2, finalDoc := some dr.1, txns := [Txn.opened, Txn.committed] }
      | Except.error d =>
        { results := none, finalDoc := some d, txns := [Txn.opened, Txn.aborted] }

/-! ### Concrete fixtures used by witnesses and counterexamples -/

/-- A repair call that succeeds and leaves the mesh unchanged. -/
def stepId : MeshState → Except Unit MeshState := fun m => Except.ok m

/-- A repair call that always raises. -/
def stepFail : MeshState → Except Unit MeshState := fun _ => Except.error ()

/-- Kernel in which every repair call succeeds without altering the mesh. -/
def envId : Env :=
  { queryRaises := false, initRaises := false,
    fixSelfIntersections := stepId, harmonizeNormals := stepId,
    hasMethod := fun _ => true,
    removeDuplicatedPoints := stepId, removeDuplicatedFacets := stepId,
    removeInvalidPoints := stepId, removeNonManifolds := stepId,
    removeFoldsOnSurface := stepId,
    fillupHoles := fun _ m => Except.ok m,
    recompute := id }

/-- Kernel in which every repair call raises. -/
def envFail : Env :=
  { queryRaises := false, initRaises := false,
    fixSelfIntersections := stepFail, harmonizeNormals := stepFail,
    hasMethod := fun _ => true,
    removeDuplicatedPoints := stepFail, removeDuplicatedFacets := stepFail,
    removeInvalidPoints := stepFail, removeNonManifolds := stepFail,
    removeFoldsOnSurface := stepFail,
    fillupHoles := fun _ _ => Except.error (),
    recompute := id }

/-- A clean mesh: solid, no non-manifolds, no self-intersections. -/
def cleanMesh0 : MeshState :=
  { solid := true, nonManifolds := false, selfIntersections := false, points := 8, facets := 12 }

/-- A mesh with no facets at all. -/
def emptyMesh : MeshState :=
  { solid := false, nonManifolds := false, selfIntersections := false, points := 0, facets := 0 }

/-- A solid mesh with non-manifold elements. -/
def dirtyMesh0 : MeshState :=
  { solid := true, nonManifolds := true, selfIntersections := false, points := 8, facets := 12 }

/-! ### C9: the fixed flag only activates on the priority branch -/

/-- C9: in every repair run, the internal self-intersections-fixed flag
stays false when the mesh had no self-intersections at the start of
`attempt_comprehensive_manual_repair`: fix-tracking is only activated on
the priority self-intersection branch. -/
theorem C9_siFixed_only_with_initial (env : Env) (m0 : MeshState)
    (h : m0.selfIntersections = false) :
    (attemptComprehensiveManualRepair env m0).siFixed = false := by
  unfold attemptComprehensiveManualRepair runPipeline priorityStage
  by_cases hi : env.initRaises
  · simp [hi]
  · simp only [hi, h, if_false, Bool.false_eq_true, if_true]
    split <;> rfl

/-- Witness for C9 at a concrete clean mesh and kernel. -/
theorem C9_witness : (attemptComprehensiveManualRepair envId cleanMesh0).siFixed = false :=
  C9_siFixed_only_with_initial envId cleanMesh0 rfl

/-! ### C1: repair on an already-clean mesh -/

/-- C1 counterexample: on a clean mesh, with every repair call available
and succeeding as a no-op, the pipeline still records applied repairs and
returns success (True), not the claimed no-repairs failure (False); the
counts are unchanged. -/
theorem C1_counterexample :
    cleanMesh0.solid = true ∧ cleanMesh0.nonManifolds = false ∧
    cleanMesh0.selfIntersections = false ∧
    (attemptComprehensiveManualRepair envId cleanMesh0).success = true ∧
    (attemptComprehensiveManualRepair envId cleanMesh0).applied ≠ [] ∧
    (attemptComprehensiveManualRepair envId cleanMesh0).docMesh.points = cleanMesh0.points ∧
    (attemptComprehensiveManualRepair envId cleanMesh0).docMesh.facets = cleanMesh0.facets := by
  decide

/-- A kernel call that either raises or returns its input unchanged. -/
def idOrRaiseOn (f : MeshState → Except Unit MeshState) : Prop :=
  ∀ s, f s = Except.error () ∨ f s = Except.ok s

theorem genStep_fst (env : Env) (st : MeshState × List String) (md : String × String)
    (hm : methodOf env md.1 st.1 = Except.error () ∨ methodOf env md.1 st.1 = Except.ok st.1) :
    (genStep env st md).1 = st.1 := by
  unfold genStep
  rcases hm with e | e <;> by_cases hb : env.hasMethod md.1 <;> simp [hb, e]

theorem foldl_genStep_fst (env : Env) (ms : List (String × String))
    (h : ∀ md ∈ ms, idOrRaiseOn (methodOf env md.1)) :
    ∀ st : MeshState × List String, (ms.foldl (genStep env) st).1 = st.1 := by
  induction ms with
  | nil => intro st; rfl
  | cons md rest ih =>
    intro st
    rw [List.foldl_cons]
    have h1 : (genStep env st md).1 = st.1 :=
      genStep_fst env st md (h md (by simp) st.1)
    rw [ih (fun md2 hmd2 => h md2 (by simp [hmd2]))]
    exact h1

theorem fillStage_fst (env : Env) (st : MeshState × List String)
    (h : idOrRaiseOn (env.fillupHoles 100)) : (fillStage env st).1 = st.1 := by
  unfold fillStage
  rcases h st.1 with e | e <;> simp [e]

/-- C1 amended: on an already-clean mesh whose repair calls are no-ops or
raise, and whose recompute is a no-op, the repair pipeline leaves the
document mesh (hence its point and facet counts) unchanged; it returns
False only when no repair call was counted as applied, and returns True
(success) whenever at least one was — so "already clean" does not imply
the no-repairs failure return. -/
theorem C1_amended_clean_mesh_repair (env : Env) (m0 : MeshState)
    (hsolid : m0.solid = true) (hnm : m0.nonManifolds = false)
    (hsi : m0.selfIntersections = false)
    (h1 : idOrRaiseOn env.removeDuplicatedPoints)
    (h2 : idOrRaiseOn env.removeDuplicatedFacets)
    (h3 : idOrRaiseOn env.removeInvalidPoints)
    (h4 : idOrRaiseOn env.removeNonManifolds)
    (h5 : idOrRaiseOn env.removeFoldsOnSurface)
    (h6 : idOrRaiseOn (env.fillupHoles 100))
    (hr : ∀ s, env.recompute s = s) :
    (attemptComprehensiveManualRepair env m0).docMesh = m0 ∧
    ((attemptComprehensiveManualRepair env m0).applied = [] →
      (attemptComprehensiveManualRepair env m0).success = false ∧
      (attemptComprehensiveManualRepair env m0).wroteBack = false) ∧
    ((attemptComprehensiveManualRepair env m0).applied ≠ [] →
      (attemptComprehensiveManualRepair env m0).success = true) := by
  have hmeth : ∀ md ∈ repairMethods, idOrRaiseOn (methodOf env md.1) := by
    intro md hmd
    fin_cases hmd <;> simpa [methodOf]
  have hpipe : (runPipeline env m0).1 = m0 := by
    unfold runPipeline
    have hp : priorityStage env m0 = (m0, [], false) := by
      simp [priorityStage, hsi]
    rw [hp]
    have hg := foldl_genStep_fst env repairMethods hmeth (m0, ([] : List String))
    have hf := fillStage_fst env (generalStage env (m0, ([] : List String))) h6
    simpa [generalStage, hg] using hf
  unfold attemptComprehensiveManualRepair
  by_cases hi : env.initRaises
  · simp [hi]
  · by_cases he : (runPipeline env m0).2.1.isEmpty
    · have hnil : (runPipeline env m0).2.1 = [] := List.isEmpty_iff.mp he
      simp [hi, he, hnil]
    · have hne : (runPipeline env m0).2.1 ≠ [] := fun hx => he (List.isEmpty_iff.mpr hx)
      have hcom : recompute3 env (runPipeline env m0).1 = m0 := by
        simp [recompute3, hr, hpipe]
      simp [hi, he, hne, hcom, finalSelfIntersections, hsi, hsolid, hnm,
        Bool.not_eq_true]

/-- Witness for C1's amended theorem: a clean mesh with all-no-op repair
calls yields unchanged document mesh and success. -/
theorem C1_witness :
    (attemptComprehensiveManualRepair envId cleanMesh0).docMesh = cleanMesh0 ∧
    (attemptComprehensiveManualRepair envId cleanMesh0).success = true := by
  have h := C1_amended_clean_mesh_repair envId cleanMesh0 rfl rfl rfl
    (fun s => Or.inr rfl) (fun s => Or.inr rfl) (fun s => Or.inr rfl)
    (fun s => Or.inr rfl) (fun s => Or.inr rfl) (fun s => Or.inr rfl)
    (fun s => rfl)
  exact ⟨h.1, h.2.2 (by decide)⟩

/-! ### C4: success condition after write-back -/

/-- C4: whenever at least one repair step was applied, the repairer writes
back, and its success return is true exactly when the committed mesh is
solid, has no non-manifolds, and the final self-intersection status is
false — that status being the negation of the tracked fixed flag when the
mesh initially had self-intersections, else the freshly queried value on
the committed mesh. -/
theorem C4_success_condition (env : Env) (m0 : MeshState)
    (h : (attemptComprehensiveManualRepair env m0).applied ≠ []) :
    (attemptComprehensiveManualRepair env m0).wroteBack = true ∧
    ((attemptComprehensiveManualRepair env m0).success = true ↔
      ((attemptComprehensiveManualRepair env m0).docMesh.solid = true ∧
       (attemptComprehensiveManualRepair env m0).docMesh.nonManifolds = false ∧
       finalSelfIntersections m0.selfIntersections
         (attemptComprehensiveManualRepair env m0).siFixed
         (attemptComprehensiveManualRepair env m0).docMesh = false)) := by
  unfold attemptComprehensiveManualRepair at h ⊢
  by_cases hi : env.initRaises
  · simp [hi] at h
  · by_cases he : (runPipeline env m0).2.1.isEmpty
    · have hnil : (runPipeline env m0).2.1 = [] := List.isEmpty_iff.mp he
      simp [hi, he, hnil] at h
    · simp only [hi, Bool.false_eq_true, if_false, he] at h ⊢
      refine ⟨trivial, ?_⟩
      cases hs : (recompute3 env (runPipeline env m0).1).solid <;>
      cases hn : (recompute3 env (runPipeline env m0).1).nonManifolds <;>
      cases hf : finalSelfIntersections m0.selfIntersections
          ((runPipeline env m0).2.2) (recompute3 env (runPipeline env m0).1) <;>
      simp [hs, hn, hf]

/-- Witness for C4 at a concrete run where repairs were applied. -/
theorem C4_witness :
    (attemptComprehensiveManualRepair envId cleanMesh0).wroteBack = true ∧
    ((attemptComprehensiveManualRepair envId cleanMesh0).success = true ↔
      ((attemptComprehensiveManualRepair envId cleanMesh0).docMesh.solid = true ∧
       (attemptComprehensiveManualRepair envId cleanMesh0).docMesh.nonManifolds = false ∧
       finalSelfIntersections cleanMesh0.selfIntersections
         (attemptComprehensiveManualRepair envId cleanMesh0).siFixed
         (attemptComprehensiveManualRepair envId cleanMesh0).docMesh = false)) :=
  C4_success_condition envId cleanMesh0 (by decide)

/-! ### C3: the evaluator's decision table -/

/-- C3: `evaluate_mesh_automated` classifies by the three queried
predicates — clean solid meshes proceed; solid-but-flawed meshes proceed
or not according to the repair outcome; non-solid meshes (in particular,
by the spec's notion of solidity, any 0-facet mesh) are classified
repair; a raising query yields cancel. The 0-facet conjunct relies on the
spec-modelled hypothesis that a mesh without facets is not solid (the
solidity predicate itself lives in the external kernel). -/
theorem C3_evaluation_decision (env : Env) (m : MeshState)
    (hz : m.facets = 0 → m.solid = false) :
    (env.queryRaises = true → (evaluateMeshAutomated env m).1 = "cancel") ∧
    (env.queryRaises = false → m.solid = true → m.nonManifolds = false →
      m.selfIntersections = false → (evaluateMeshAutomated env m).1 = "proceed") ∧
    (env.queryRaises = false → m.solid = true →
      (m.nonManifolds = true ∨ m.selfIntersections = true) →
      (evaluateMeshAutomated env m).1 =
        (if (attemptMeshRepair env m).1 then "proceed" else "repair")) ∧
    (env.queryRaises = false → m.solid = false →
      (evaluateMeshAutomated env m).1 = "repair") ∧
    (env.queryRaises = false → m.facets = 0 →
      (evaluateMeshAutomated env m).1 = "repair") := by
  refine ⟨?_, ?_, ?_, ?_, ?_⟩
  · intro hq
    simp [evaluateMeshAutomated, hq]
  · intro hq hs hn hsi
    simp [evaluateMeshAutomated, hq, hs, hn, hsi]
  · intro hq hs hd
    have hcond : (m.solid && !m.nonManifolds && !m.selfIntersections) = false := by
      rcases hd with hd | hd <;> simp [hd]
    cases hrep : (attemptMeshRepair env m).1 <;>
      rcases hd with hd | hd <;>
      simp [evaluateMeshAutomated, hq, hs, hd, hcond, hrep]
  · intro hq hs
    simp [evaluateMeshAutomated, hq, hs]
  · intro hq hf
    simp [evaluateMeshAutomated, hq, hz hf]

/-- Witness for C3: a 0-facet mesh is classified repair; a clean solid
mesh proceeds. -/
theorem C3_witness :
    (evaluateMeshAutomated envId emptyMesh).1 = "repair" ∧
    (evaluateMeshAutomated envId cleanMesh0).1 = "proceed" := by
  constructor
  · exact (C3_evaluation_decision envId emptyMesh (fun _ => rfl)).2.2.2.2 rfl rfl
  · exact (C3_evaluation_decision envId cleanMesh0 (by decide)).2.1 rfl rfl rfl rfl

/-! ### C5: fixed step order, best-effort steps, no-op on empty applied list -/

/-- The fixed order in which the repair pipeline's step labels can be
recorded. -/
def canonicalRepairOrder : List String :=
  [fixSelfIntersectionsLabel, harmonizeLabel] ++ repairMethods.map Prod.snd ++ [fillHolesLabel]

theorem priorityStage_applied_sublist (env : Env) (m : MeshState) :
    (priorityStage env m).2.1.Sublist [fixSelfIntersectionsLabel, harmonizeLabel] := by
  unfold priorityStage
  split
  · split
    · exact List.nil_sublist _
    · split
      · exact (List.nil_sublist _).cons₂ _
      · exact List.Sublist.refl _
  · exact List.nil_sublist _

theorem foldl_genStep_applied (env : Env) (ms : List (String × String)) :
    ∀ st : MeshState × List String, ∃ d, (ms.foldl (genStep env) st).2 = st.2 ++ d ∧
      d.Sublist (ms.map Prod.snd) := by
  induction ms with
  | nil => exact fun st => ⟨[], by simp, List.nil_sublist _⟩
  | cons md rest ih =>
    intro st
    rw [List.foldl_cons]
    obtain ⟨d, hd, hsub⟩ := ih (genStep env st md)
    by_cases hb : env.hasMethod md.1
    · cases hmo : methodOf env md.1 st.1 with
      | error e =>
        have hstep : genStep env st md = st := by
          unfold genStep; simp [hb, hmo]
        rw [hstep] at hd ⊢
        exact ⟨d, hd, hsub.cons md.2⟩
      | ok m2 =>
        have hstep : genStep env st md = (m2, st.2 ++ [md.2]) := by
          unfold genStep; simp [hb, hmo]
        rw [hstep] at hd ⊢
        refine ⟨md.2 :: d, ?_, hsub.cons₂ md.2⟩
        simpa using hd
    · have hstep : genStep env st md = st := by
        unfold genStep; simp [hb]
      rw [hstep] at hd ⊢
      exact ⟨d, hd, hsub.cons md.2⟩

theorem fillStage_applied (env : Env) (st : MeshState × List String) :
    ∃ e, (fillStage env st).2 = st.2 ++ e ∧ e.Sublist [fillHolesLabel] := by
  unfold fillStage
  cases env.fillupHoles 100 st.1 with
  | error u => exact ⟨[], by simp, List.nil_sublist _⟩
  | ok m2 => exact ⟨[fillHolesLabel], rfl, List.Sublist.refl _⟩

theorem runPipeline_applied_sublist (env : Env) (m0 : MeshState) :
    (runPipeline env m0).2.1.Sublist canonicalRepairOrder := by
  obtain ⟨d, hd, hdsub⟩ :=
    foldl_genStep_applied env repairMethods ((priorityStage env m0).1, (priorityStage env m0).2.1)
  obtain ⟨e, he, hesub⟩ :=
    fillStage_applied env (generalStage env ((priorityStage env m0).1, (priorityStage env m0).2.1))
  have happ : (runPipeline env m0).2.1 = (priorityStage env m0).2.1 ++ d ++ e := by
    show (fillStage env (generalStage env ((priorityStage env m0).1, (priorityStage env m0).2.1))).2 =
      (priorityStage env m0).2.1 ++ d ++ e
    rw [he]
    unfold generalStage
    rw [hd]
  rw [happ]
  exact ((priorityStage_applied_sublist env m0).append hdsub).append hesub

/-- C5: the repair steps are recorded in the fixed canonical order
(priority self-intersection fix, harmonize, the five general removals,
bounded hole filling); a step whose kernel call raises is skipped leaving
both the mesh and the applied list unchanged while the pipeline continues
through the remaining stages; and if no step is ever applied the repairer
returns failure without writing back. -/
theorem C5_pipeline_order_and_noop (env : Env) (m0 : MeshState) :
    (attemptComprehensiveManualRepair env m0).applied.Sublist canonicalRepairOrder ∧
    ((attemptComprehensiveManualRepair env m0).applied = [] →
      (attemptComprehensiveManualRepair env m0).success = false ∧
      (attemptComprehensiveManualRepair env m0).wroteBack = false ∧
      (attemptComprehensiveManualRepair env m0).docMesh = m0) ∧
    (∀ st : MeshState × List String, ∀ md : String × String,
      methodOf env md.1 st.1 = Except.error () → genStep env st md = st) ∧
    (∀ st : MeshState × List String,
      env.fillupHoles 100 st.1 = Except.error () → fillStage env st = st) ∧
    runPipeline env m0 =
      ((fillStage env (generalStage env ((priorityStage env m0).1, (priorityStage env m0).2.1))).1,
       (fillStage env (generalStage env ((priorityStage env m0).1, (priorityStage env m0).2.1))).2,
       (priorityStage env m0).2.2) := by
  refine ⟨?_, ?_, ?_, ?_, rfl⟩
  · unfold attemptComprehensiveManualRepair
    by_cases hi : env.initRaises
    · simp only [hi, if_true]
      exact List.nil_sublist _
    · by_cases he : (runPipeline env m0).2.1.isEmpty
      · simp only [hi, Bool.false_eq_true, if_false, he, if_true]
        exact runPipeline_applied_sublist env m0
      · simp only [hi, Bool.false_eq_true, if_false, he, if_true]
        exact runPipeline_applied_sublist env m0
  · unfold attemptComprehensiveManualRepair
    by_cases hi : env.initRaises
    · simp [hi]
    · by_cases he : (runPipeline env m0).2.1.isEmpty
      · simp [hi, he]
      · have hne : (runPipeline env m0).2.1 ≠ [] := fun hx => he (List.isEmpty_iff.mpr hx)
        simp [hi, he, hne]
  · intro st md hmo
    unfold genStep
    by_cases hb : env.hasMethod md.1 <;> simp [hb, hmo]
  · intro st hf
    unfold fillStage
    simp [hf]

/-- Witness for C5 at a kernel where every repair call raises: nothing is
applied, and the repairer reports failure without write-back. -/
theorem C5_witness :
    (attemptComprehensiveManualRepair envFail cleanMesh0).applied = [] ∧
    (attemptComprehensiveManualRepair envFail cleanMesh0).success = false ∧
    (attemptComprehensiveManualRepair envFail cleanMesh0).wroteBack = false ∧
    (attemptComprehensiveManualRepair envFail cleanMesh0).applied.Sublist canonicalRepairOrder := by
  have h := C5_pipeline_order_and_noop envFail cleanMesh0
  have hnil : (attemptComprehensiveManualRepair envFail cleanMesh0).applied = [] := by decide
  exact ⟨hnil, (h.2.1 hnil).1, (h.2.1 hnil).2.1, h.1⟩

/-! ### Document-layer lemmas -/

theorem append_left_cancel_str (a x y : String) (h : a ++ x = a ++ y) : x = y := by
  have hd : (a ++ x).data = (a ++ y).data := congrArg String.data h
  rw [String.data_append, String.data_append] at hd
  have h2 := List.append_cancel_left hd
  cases x; cases y
  exact congrArg String.mk h2

theorem beq_append_suffix (bn : String) {x y : String} (h : (x == y) = false) :
    ((bn ++ x) == (bn ++ y)) = false := by
  rw [beq_eq_false_iff_ne] at h ⊢
  exact fun hc => h (append_left_cancel_str bn x y hc)

theorem beq_append_self_false (bn x : String) (h : x.length ≠ 0) :
    ((bn ++ x) == bn) = false := by
  rw [beq_eq_false_iff_ne]
  intro hc
  have hl := congrArg String.length hc
  rw [String.length_append] at hl
  omega

theorem beq_self_append_false (bn x : String) (h : x.length ≠ 0) :
    (bn == (bn ++ x)) = false := by
  rw [beq_eq_false_iff_ne]
  intro hc
  have hl := congrArg String.length hc
  rw [String.length_append] at hl
  omega

theorem getObject_name {d : Doc} {n : String} {o : Obj} (h : getObject d n = some o) :
    o.name = n := by
  have := List.find?_some h
  simpa using this

theorem getObject_append (d1 d2 : Doc) (n : String) :
    getObject (d1 ++ d2) n = (getObject d1 n).or (getObject d2 n) :=
  List.find?_append

theorem getObject_removeObject_self (d : Doc) (n : String) :
    getObject (removeObject d n) n = none := by
  unfold getObject removeObject
  rw [List.find?_eq_none]
  intro o ho
  have := List.of_mem_filter ho
  simpa using this

theorem find?_filter_of_imp (l : List Obj) (p q : Obj → Bool)
    (h : ∀ o, p o = true → q o = true) : (l.filter q).find? p = l.find? p := by
  induction l with
  | nil => rfl
  | cons o rest ih =>
    by_cases hp : p o = true
    · have hq := h o hp
      simp [List.filter_cons, hq, List.find?_cons, hp, ih]
    · by_cases hq : q o = true <;>
        simp [List.filter_cons, hq, List.find?_cons, hp, ih]

theorem getObject_removeObject_ne (d : Doc) (n n2 : String) (h : n2 ≠ n) :
    getObject (removeObject d n) n2 = getObject d n2 := by
  unfold getObject removeObject
  apply find?_filter_of_imp
  intro o hp
  have : o.name = n2 := by simpa using hp
  simp [this, bne, h]

theorem getObject_removeObject_none (d : Doc) (n n2 : String)
    (h : getObject d n2 = none) : getObject (removeObject d n) n2 = none := by
  unfold getObject at h
  unfold getObject removeObject
  rw [List.find?_eq_none] at h ⊢
  intro o ho
  exact h o (List.mem_of_mem_filter ho)

theorem removeObject_of_getObject_none (d : Doc) (n : String)
    (h : getObject d n = none) : removeObject d n = d := by
  unfold getObject at h
  rw [List.find?_eq_none] at h
  apply List.filter_eq_self.mpr
  intro o ho
  have := h o ho
  simpa [bne] using this

theorem removeObject_append (d1 d2 : Doc) (n : String) :
    removeObject (d1 ++ d2) n = removeObject d1 n ++ removeObject d2 n :=
  List.filter_append d1 d2

theorem pred_comp_setMeshFun (n n2 : String) (m : MeshState) :
    ((fun o : Obj => o.name == n2) ∘
      fun o : Obj => if o.name == n then { o with mesh := some m } else o) =
      fun o : Obj => o.name == n2 := by
  funext o
  by_cases h : o.name = n <;> simp [h]

theorem getObject_setMesh (d : Doc) (n : String) (m : MeshState) (n2 : String) :
    getObject (setMesh d n m) n2 =
      (getObject d n2).map (fun o => if o.name == n then { o with mesh := some m } else o) := by
  unfold getObject setMesh
  rw [List.find?_map, pred_comp_setMeshFun]

theorem getObject_removeEach_not_mem (cenv : ConvEnv) (l : List String) (d : Doc)
    (n : String) (h : n ∉ l) : getObject (removeEach cenv d l) n = getObject d n := by
  induction l generalizing d with
  | nil => rfl
  | cons n2 rest ih =>
    have hne : n ≠ n2 := fun hc => h (by simp [hc])
    have hrest : n ∉ rest := fun hc => h (by simp [hc])
    unfold removeEach
    rw [List.foldl_cons]
    by_cases hr : cenv.removeRaises n2
    · simpa [hr] using ih d hrest
    · have := ih (removeObject d n2) hrest
      unfold removeEach at this
      simp only [hr, Bool.false_eq_true, if_false]
      rw [this, getObject_removeObject_ne d n2 n hne]

theorem getObject_removeEach_none (cenv : ConvEnv) (l : List String) (d : Doc)
    (n : String) (h : getObject d n = none) :
    getObject (removeEach cenv d l) n = none := by
  induction l generalizing d with
  | nil => exact h
  | cons n2 rest ih =>
    unfold removeEach
    rw [List.foldl_cons]
    by_cases hr : cenv.removeRaises n2
    · simpa [hr] using ih d h
    · have h2 : getObject (removeObject d n2) n = none :=
        getObject_removeObject_none d n2 n h
      have := ih (removeObject d n2) h2
      unfold removeEach at this
      simpa [hr] using this

theorem getObject_removeEach_mem (cenv : ConvEnv) (l : List String) (d : Doc)
    (n : String) (hmem : n ∈ l) (hr : cenv.removeRaises n = false) :
    getObject (removeEach cenv d l) n = none := by
  induction l generalizing d with
  | nil => cases hmem
  | cons n2 rest ih =>
    unfold removeEach
    rw [List.foldl_cons]
    by_cases heq : n = n2
    · subst heq
      simp only [hr, if_false]
      have h2 : getObject (removeObject d n) n = none := getObject_removeObject_self d n
      have := getObject_removeEach_none cenv rest (removeObject d n) n h2
      unfold removeEach at this
      exact this
    · have hrest : n ∈ rest := by
        cases hmem with
        | head => exact absurd rfl heq
        | tail _ hm => exact hm
      by_cases hr2 : cenv.removeRaises n2
      · simpa [hr2] using ih d hrest
      · have := ih (removeObject d n2) hrest
        unfold removeEach at this
        simpa [hr2] using this

/-! ### C2: failure-path cleanup in convert_single_mesh -/

theorem getObject_append_left (d1 d2 : Doc) (n : String) (o : Obj)
    (h : getObject d1 n = some o) : getObject (d1 ++ d2) n = some o := by
  rw [getObject_append, h]
  rfl

theorem convCleanup_removed (cenv : ConvEnv) (doc : Doc) (bn : String) (t0 : List Txn)
    (base : Bool) (n : String) (hmem : n ∈ cleanupNames bn)
    (hr : cenv.removeRaises n = false) :
    getObject (convCleanup cenv doc bn t0 base).doc n = none := by
  unfold convCleanup
  by_cases hex : (getObject doc n).isSome = true
  · exact getObject_removeEach_mem cenv _ doc n (List.mem_filter.mpr ⟨hmem, hex⟩) hr
  · have hnone : getObject doc n = none := by
      cases hg : getObject doc n with
      | none => rfl
      | some o2 => rw [hg] at hex; simp at hex
    exact getObject_removeEach_none cenv _ doc n hnone

theorem convCleanup_other (cenv : ConvEnv) (doc : Doc) (bn : String) (t0 : List Txn)
    (base : Bool) (n : String) (hnot : n ∉ cleanupNames bn) :
    getObject (convCleanup cenv doc bn t0 base).doc n = getObject doc n := by
  unfold convCleanup
  apply getObject_removeEach_not_mem
  intro hmem
  exact hnot (List.mem_of_mem_filter hmem)

theorem self_not_mem_cleanupNames (bn : String) : bn ∉ cleanupNames bn := by
  have key : ∀ x : String, x.length ≠ 0 → bn ≠ bn ++ x := by
    intro x hx hc
    have hl := congrArg String.length hc
    rw [String.length_append] at hl
    omega
  intro h
  rcases (by simpa [cleanupNames] using h : bn = bn ++ "_shape" ∨ bn = bn ++ "_solid" ∨
      bn = bn ++ "_solid_refined" ∨ bn = bn ++ "_solid_simple") with h | h | h | h
  · exact key "_shape" (by decide) h
  · exact key "_solid" (by decide) h
  · exact key "_solid_refined" (by decide) h
  · exact key "_solid_simple" (by decide) h

/-- Under a present mesh object and a proceed evaluation,
`convert_single_mesh` runs the construction on the document whose mesh
object carries the post-evaluation state. -/
theorem convertSingleMesh_proceed (cenv : ConvEnv) (doc0 : Doc) (meshName : String)
    (base : Bool) (o : Obj) (m : MeshState)
    (hobj : getObject doc0 meshName = some o) (hmesh : o.mesh = some m)
    (hev : (evaluateMeshAutomated cenv.env m).1 = "proceed") :
    convertSingleMesh cenv doc0 meshName base =
      convertProceed cenv (setMesh doc0 meshName (evaluateMeshAutomated cenv.env m).2)
        meshName (evaluateMeshAutomated cenv.env m).2
        (if base then [] else [Txn.opened]) base := by
  unfold convertSingleMesh
  rw [hobj]
  simp only [Option.bind]
  rw [hmesh]
  simp [hev]

/-- The three ways the construction of `convert_single_mesh` can fail
after a proceed verdict: shape construction raises, solid construction
raises, or the refined shape is invalid. -/
def failsConstruction (cenv : ConvEnv) (m2 : MeshState) : Prop :=
  cenv.makeShape (1 / 10 : Rat) m2 = Except.error () ∨
  (∃ s, cenv.makeShape (1 / 10 : Rat) m2 = Except.ok s ∧
    cenv.makeSolid s = Except.error ()) ∨
  (∃ s sol, cenv.makeShape (1 / 10 : Rat) m2 = Except.ok s ∧
    cenv.makeSolid s = Except.ok sol ∧ cenv.refinedValid (cenv.refine sol) = false)

/-- C2 amended: when conversion fails after a proceed evaluation, the
handler best-effort deletes every entity matching the four intermediate
name patterns (each is gone whenever its removal did not raise; raised
removals are swallowed and do not change the returned outcome), aborts the
transaction exactly when the caller did not own it, returns (False, None),
and the original mesh entity still exists — holding the state evaluation
left it in (the conversion steps themselves never modify it); that state
equals the original one whenever the embedded repair did not write back. -/
theorem C2_amended_failure_cleanup (cenv : ConvEnv) (doc0 : Doc) (meshName : String)
    (base : Bool) (o : Obj) (m : MeshState)
    (hobj : getObject doc0 meshName = some o) (hmesh : o.mesh = some m)
    (hev : (evaluateMeshAutomated cenv.env m).1 = "proceed")
    (hfail : failsConstruction cenv (evaluateMeshAutomated cenv.env m).2) :
    (convertSingleMesh cenv doc0 meshName base).success = false ∧
    (convertSingleMesh cenv doc0 meshName base).bodyName = none ∧
    (base = false →
      (convertSingleMesh cenv doc0 meshName base).txns = [Txn.opened, Txn.aborted]) ∧
    (base = true → (convertSingleMesh cenv doc0 meshName base).txns = []) ∧
    (∀ n ∈ cleanupNames meshName, cenv.removeRaises n = false →
      getObject (convertSingleMesh cenv doc0 meshName base).doc n = none) ∧
    getObject (convertSingleMesh cenv doc0 meshName base).doc meshName =
      some { o with mesh := some (evaluateMeshAutomated cenv.env m).2 } := by
  rw [convertSingleMesh_proceed cenv doc0 meshName base o m hobj hmesh hev]
  have hdoc1get : getObject (setMesh doc0 meshName (evaluateMeshAutomated cenv.env m).2)
      meshName = some { o with mesh := some (evaluateMeshAutomated cenv.env m).2 } := by
    rw [getObject_setMesh, hobj]
    simp [getObject_name hobj]
  have hnotmem := self_not_mem_cleanupNames meshName
  rcases hfail with h1 | ⟨s, hs, h2⟩ | ⟨s, sol, hs, hsol, h3⟩
  · unfold convertProceed
    simp only [h1]
    refine ⟨rfl, rfl, ?_, ?_, ?_, ?_⟩
    · intro hb; subst hb; rfl
    · intro hb; subst hb; rfl
    · intro n hmem hr
      exact convCleanup_removed cenv _ meshName _ base n hmem hr
    · rw [convCleanup_other cenv _ meshName _ base meshName hnotmem]
      exact getObject_append_left _ _ meshName _ hdoc1get
  · unfold convertProceed
    simp only [hs, h2]
    refine ⟨rfl, rfl, ?_, ?_, ?_, ?_⟩
    · intro hb; subst hb; rfl
    · intro hb; subst hb; rfl
    · intro n hmem hr
      exact convCleanup_removed cenv _ meshName _ base n hmem hr
    · rw [convCleanup_other cenv _ meshName _ base meshName hnotmem]
      exact getObject_append_left _ _ meshName _
        (getObject_append_left _ _ meshName _ hdoc1get)
  · unfold convertProceed
    simp only [hs, hsol, h3, Bool.false_eq_true, if_false]
    refine ⟨rfl, rfl, ?_, ?_, ?_, ?_⟩
    · intro hb; subst hb; rfl
    · intro hb; subst hb; rfl
    · intro n hmem hr
      exact convCleanup_removed cenv _ meshName _ base n hmem hr
    · rw [convCleanup_other cenv _ meshName _ base meshName hnotmem]
      exact getObject_append_left _ _ meshName _
        (getObject_append_left _ _ meshName _
          (getObject_append_left _ _ meshName _ hdoc1get))

/-- Kernel whose non-manifold removal genuinely fixes (hence changes) the
mesh, all other repair calls being no-ops. -/
def envRepairNM : Env :=
  { envId with removeNonManifolds := fun m => Except.ok { m with nonManifolds := false } }

/-- Conversion environment in which shape construction always raises. -/
def cenvFailShape : ConvEnv :=
  { env := envRepairNM, makeShape := fun _ _ => Except.error (),
    makeSolid := fun s => Except.ok s, refine := id, refinedValid := fun _ => true,
    removeRaises := fun _ => false }

def meshObjC2 : Obj :=
  { name := "M", typeId := "Mesh::Feature", mesh := some dirtyMesh0,
    shape := none, baseFeature := none }

def docC2 : Doc := [meshObjC2]

/-- The state `dirtyMesh0` reaches after the repair embedded in
evaluation fixed its non-manifolds. -/
def repairedMesh0 : MeshState :=
  { solid := true, nonManifolds := false, selfIntersections := false, points := 8, facets := 12 }

/-- C2 counterexample: a solid mesh with non-manifolds is repaired (and
thereby modified) during evaluation, then conversion fails at shape
construction under the batch flag; the mesh entity survives but its state
differs from the original, so "still exists, unchanged" is false. -/
theorem C2_counterexample :
    (convertSingleMesh cenvFailShape docC2 "M" true).success = false ∧
    getObject (convertSingleMesh cenvFailShape docC2 "M" true).doc "M" =
      some { name := "M", typeId := "Mesh::Feature", mesh := some repairedMesh0,
             shape := none, baseFeature := none } ∧
    repairedMesh0 ≠ dirtyMesh0 := by
  decide

/-- Witness for C2's amended theorem at the concrete failing conversion. -/
theorem C2_witness :
    (convertSingleMesh cenvFailShape docC2 "M" true).success = false ∧
    (convertSingleMesh cenvFailShape docC2 "M" true).txns = [] ∧
    getObject (convertSingleMesh cenvFailShape docC2 "M" true).doc ("M" ++ "_shape") = none := by
  have h := C2_amended_failure_cleanup cenvFailShape docC2 "M" true meshObjC2 dirtyMesh0
    (by decide) (by decide) (by decide) (Or.inl rfl)
  exact ⟨h.1, h.2.2.2.1 rfl, h.2.2.2.2.1 ("M" ++ "_shape") (by simp [cleanupNames]) rfl⟩

/-! ### C6: the successful conversion path -/

/-- Number of parametric-body entities in the document. -/
def bodyCount (d : Doc) : Nat :=
  (d.filter (fun o => o.typeId == "PartDesign::Body")).length

theorem bodyCount_append (d1 d2 : Doc) :
    bodyCount (d1 ++ d2) = bodyCount d1 + bodyCount d2 := by
  unfold bodyCount
  rw [List.filter_append, List.length_append]

theorem typeId_comp_setMeshFun (n : String) (m : MeshState) :
    ((fun o : Obj => o.typeId == "PartDesign::Body") ∘
      fun o : Obj => if o.name == n then { o with mesh := some m } else o) =
      fun o : Obj => o.typeId == "PartDesign::Body" := by
  funext o
  by_cases h : o.name = n <;> simp [h]

theorem bodyCount_setMesh (d : Doc) (n : String) (m : MeshState) :
    bodyCount (setMesh d n m) = bodyCount d := by
  unfold bodyCount setMesh
  rw [List.filter_map, typeId_comp_setMeshFun, List.length_map]

theorem bodyCount_removeObject_of_not_body (d : Doc) (n : String)
    (h : ∀ o ∈ d, o.name = n → o.typeId ≠ "PartDesign::Body") :
    bodyCount (removeObject d n) = bodyCount d := by
  unfold bodyCount removeObject
  rw [List.filter_filter]
  congr 1
  apply List.filter_congr
  intro a ha
  by_cases ht : a.typeId = "PartDesign::Body"
  · have hn : a.name ≠ n := fun hc => h a ha hc ht
    simp [ht, hn, bne]
  · simp [ht, bne]

theorem notBody_setMesh (d : Doc) (nm : String) (mm : MeshState) (n : String)
    (h : ∀ o ∈ d, o.name = n → o.typeId ≠ "PartDesign::Body") :
    ∀ o ∈ setMesh d nm mm, o.name = n → o.typeId ≠ "PartDesign::Body" := by
  intro o ho hon
  unfold setMesh at ho
  obtain ⟨o2, ho2, heq⟩ := List.mem_map.mp ho
  by_cases h2 : o2.name = nm
  · rw [← heq] at hon ⊢
    simp [h2] at hon ⊢
    exact h o2 ho2 (h2.trans hon)
  · rw [← heq] at hon ⊢
    simp [h2] at hon ⊢
    exact h o2 ho2 hon

/-- C6: for a present mesh whose evaluation proceeds and whose shape,
solid and refine steps all succeed with a valid refined shape, conversion
returns (True, body name); the document afterwards holds the new body
(wrapping the refined shape through the fresh standalone simple copy),
none of the shape / unrefined-solid / refined-solid intermediates, no
object under the original mesh name, and exactly one more body than
before; the per-item transaction is committed exactly when the caller did
not own it. -/
theorem C6_successful_conversion (cenv : ConvEnv) (doc0 : Doc) (meshName : String)
    (base : Bool) (o : Obj) (m : MeshState) (s sol : Nat)
    (hobj : getObject doc0 meshName = some o) (hmesh : o.mesh = some m)
    (hev : (evaluateMeshAutomated cenv.env m).1 = "proceed")
    (hshape : cenv.makeShape (1 / 10 : Rat) (evaluateMeshAutomated cenv.env m).2 = Except.ok s)
    (hsolid : cenv.makeSolid s = Except.ok sol)
    (hvalid : cenv.refinedValid (cenv.refine sol) = true)
    (hfresh : ∀ n ∈ cleanupNames meshName ++ [meshName ++ "_Body"], getObject doc0 n = none)
    (hnotbody : ∀ o2 ∈ doc0, o2.name = meshName → o2.typeId ≠ "PartDesign::Body") :
    (convertSingleMesh cenv doc0 meshName base).success = true ∧
    (convertSingleMesh cenv doc0 meshName base).bodyName = some (meshName ++ "_Body") ∧
    getObject (convertSingleMesh cenv doc0 meshName base).doc (meshName ++ "_Body") =
      some { name := meshName ++ "_Body", typeId := "PartDesign::Body", mesh := none,
             shape := some (cenv.refine sol),
             baseFeature := some (meshName ++ "_solid_simple") } ∧
    getObject (convertSingleMesh cenv doc0 meshName base).doc (meshName ++ "_solid_simple") =
      some { name := meshName ++ "_solid_simple", typeId := "Part::Feature", mesh := none,
             shape := some (cenv.refine sol), baseFeature := none } ∧
    getObject (convertSingleMesh cenv doc0 meshName base).doc (meshName ++ "_shape") = none ∧
    getObject (convertSingleMesh cenv doc0 meshName base).doc (meshName ++ "_solid") = none ∧
    getObject (convertSingleMesh cenv doc0 meshName base).doc
      (meshName ++ "_solid_refined") = none ∧
    getObject (convertSingleMesh cenv doc0 meshName base).doc meshName = none ∧
    bodyCount (convertSingleMesh cenv doc0 meshName base).doc = bodyCount doc0 + 1 ∧
    (base = false →
      (convertSingleMesh cenv doc0 meshName base).txns = [Txn.opened, Txn.committed]) ∧
    (base = true → (convertSingleMesh cenv doc0 meshName base).txns = []) := by
  have hBA : ((meshName ++ "_solid") == (meshName ++ "_shape")) = false :=
    beq_append_suffix meshName (by decide)
  have hCA : ((meshName ++ "_solid_refined") == (meshName ++ "_shape")) = false :=
    beq_append_suffix meshName (by decide)
  have hDA : ((meshName ++ "_solid_simple") == (meshName ++ "_shape")) = false :=
    beq_append_suffix meshName (by decide)
  have hEA : ((meshName ++ "_Body") == (meshName ++ "_shape")) = false :=
    beq_append_suffix meshName (by decide)
  have hCB : ((meshName ++ "_solid_refined") == (meshName ++ "_solid")) = false :=
    beq_append_suffix meshName (by decide)
  have hDB : ((meshName ++ "_solid_simple") == (meshName ++ "_solid")) = false :=
    beq_append_suffix meshName (by decide)
  have hEB : ((meshName ++ "_Body") == (meshName ++ "_solid")) = false :=
    beq_append_suffix meshName (by decide)
  have hDC : ((meshName ++ "_solid_simple") == (meshName ++ "_solid_refined")) = false :=
    beq_append_suffix meshName (by decide)
  have hEC : ((meshName ++ "_Body") == (meshName ++ "_solid_refined")) = false :=
    beq_append_suffix meshName (by decide)
  have hDE : ((meshName ++ "_solid_simple") == (meshName ++ "_Body")) = false :=
    beq_append_suffix meshName (by decide)
  have hDbn : ((meshName ++ "_solid_simple") == meshName) = false :=
    beq_append_self_false meshName _ (by decide)
  have hEbn : ((meshName ++ "_Body") == meshName) = false :=
    beq_append_self_false meshName _ (by decide)
  have hfA : getObject (setMesh doc0 meshName (evaluateMeshAutomated cenv.env m).2)
      (meshName ++ "_shape") = none := by
    rw [getObject_setMesh, hfresh (meshName ++ "_shape") (by simp [cleanupNames])]
    rfl
  have hfB : getObject (setMesh doc0 meshName (evaluateMeshAutomated cenv.env m).2)
      (meshName ++ "_solid") = none := by
    rw [getObject_setMesh, hfresh (meshName ++ "_solid") (by simp [cleanupNames])]
    rfl
  have hfC : getObject (setMesh doc0 meshName (evaluateMeshAutomated cenv.env m).2)
      (meshName ++ "_solid_refined") = none := by
    rw [getObject_setMesh, hfresh (meshName ++ "_solid_refined") (by simp [cleanupNames])]
    rfl
  have hfD : getObject (setMesh doc0 meshName (evaluateMeshAutomated cenv.env m).2)
      (meshName ++ "_solid_simple") = none := by
    rw [getObject_setMesh, hfresh (meshName ++ "_solid_simple") (by simp [cleanupNames])]
    rfl
  have hfE : getObject (setMesh doc0 meshName (evaluateMeshAutomated cenv.env m).2)
      (meshName ++ "_Body") = none := by
    rw [getObject_setMesh, hfresh (meshName ++ "_Body") (by simp [cleanupNames])]
    rfl
  have hstep : removeObject (removeObject (removeObject (removeObject
      (addObject (addObject (addObject (addObject (addObject
        (setMesh doc0 meshName (evaluateMeshAutomated cenv.env m).2)
        { name := meshName ++ "_shape", typeId := "Part::Feature", mesh := none,
          shape := some s, baseFeature := none })
        { name := meshName ++ "_solid", typeId := "Part::Feature", mesh := none,
          shape := some sol, baseFeature := none })
        { name := meshName ++ "_solid_refined", typeId := "Part::Refine", mesh := none,
          shape := some (cenv.refine sol), baseFeature := none })
        { name := meshName ++ "_solid_simple", typeId := "Part::Feature", mesh := none,
          shape := some (cenv.refine sol), baseFeature := none })
        { name := meshName ++ "_Body", typeId := "PartDesign::Body", mesh := none,
          shape := some (cenv.refine sol), baseFeature := some (meshName ++ "_solid_simple") })
      (meshName ++ "_shape")) (meshName ++ "_solid")) (meshName ++ "_solid_refined")) meshName =
      removeObject (setMesh doc0 meshName (evaluateMeshAutomated cenv.env m).2) meshName ++
        [{ name := meshName ++ "_solid_simple", typeId := "Part::Feature", mesh := none,
           shape := some (cenv.refine sol), baseFeature := none },
         { name := meshName ++ "_Body", typeId := "PartDesign::Body", mesh := none,
           shape := some (cenv.refine sol), baseFeature := some (meshName ++ "_solid_simple") }] := by
    have h1 : addObject (addObject (addObject (addObject (addObject
        (setMesh doc0 meshName (evaluateMeshAutomated cenv.env m).2)
        { name := meshName ++ "_shape", typeId := "Part::Feature", mesh := none,
          shape := some s, baseFeature := none })
        { name := meshName ++ "_solid", typeId := "Part::Feature", mesh := none,
          shape := some sol, baseFeature := none })
        { name := meshName ++ "_solid_refined", typeId := "Part::Refine", mesh := none,
          shape := some (cenv.refine sol), baseFeature := none })
        { name := meshName ++ "_solid_simple", typeId := "Part::Feature", mesh := none,
          shape := some (cenv.refine sol), baseFeature := none })
        { name := meshName ++ "_Body", typeId := "PartDesign::Body", mesh := none,
          shape := some (cenv.refine sol), baseFeature := some (meshName ++ "_solid_simple") } =
        setMesh doc0 meshName (evaluateMeshAutomated cenv.env m).2 ++
        [{ name := meshName ++ "_shape", typeId := "Part::Feature", mesh := none,
           shape := some s, baseFeature := none },
         { name := meshName ++ "_solid", typeId := "Part::Feature", mesh := none,
           shape := some sol, baseFeature := none },
         { name := meshName ++ "_solid_refined", typeId := "Part::Refine", mesh := none,
           shape := some (cenv.refine sol), baseFeature := none },
         { name := meshName ++ "_solid_simple", typeId := "Part::Feature", mesh := none,
           shape := some (cenv.refine sol), baseFeature := none },
         { name := meshName ++ "_Body", typeId := "PartDesign::Body", mesh := none,
           shape := some (cenv.refine sol), baseFeature := some (meshName ++ "_solid_simple") }] := by
      simp [addObject]
    rw [h1]
    rw [removeObject_append, removeObject_of_getObject_none _ _ hfA]
    have r1 : removeObject
        [{ name := meshName ++ "_shape", typeId := "Part::Feature", mesh := none,
           shape := some s, baseFeature := none },
         { name := meshName ++ "_solid", typeId := "Part::Feature", mesh := none,
           shape := some sol, baseFeature := none },
         { name := meshName ++ "_solid_refined", typeId := "Part::Refine", mesh := none,
           shape := some (cenv.refine sol), baseFeature := none },
         { name := meshName ++ "_solid_simple", typeId := "Part::Feature", mesh := none,
           shape := some (cenv.refine sol), baseFeature := none },
         { name := meshName ++ "_Body", typeId := "PartDesign::Body", mesh := none,
           shape := some (cenv.refine sol), baseFeature := some (meshName ++ "_solid_simple") }]
        (meshName ++ "_shape") =
        [{ name := meshName ++ "_solid", typeId := "Part::Feature", mesh := none,
           shape := some sol, baseFeature := none },
         { name := meshName ++ "_solid_refined", typeId := "Part::Refine", mesh := none,
           shape := some (cenv.refine sol), baseFeature := none },
         { name := meshName ++ "_solid_simple", typeId := "Part::Feature", mesh := none,
           shape := some (cenv.refine sol), baseFeature := none },
         { name := meshName ++ "_Body", typeId := "PartDesign::Body", mesh := none,
           shape := some (cenv.refine sol), baseFeature := some (meshName ++ "_solid_simple") }] := by
      simp [removeObject, List.filter, bne, hBA, hCA, hDA, hEA]
    rw [r1]
    rw [removeObject_append, removeObject_of_getObject_none _ _ hfB]
    have r2 : removeObject
        [{ name := meshName ++ "_solid", typeId := "Part::Feature", mesh := none,
           shape := some sol, baseFeature := none },
         { name := meshName ++ "_solid_refined", typeId := "Part::Refine", mesh := none,
           shape := some (cenv.refine sol), baseFeature := none },
         { name := meshName ++ "_solid_simple", typeId := "Part::Feature", mesh := none,
           shape := some (cenv.refine sol), baseFeature := none },
         { name := meshName ++ "_Body", typeId := "PartDesign::Body", mesh := none,
           shape := some (cenv.refine sol), baseFeature := some (meshName ++ "_solid_simple") }]
        (meshName ++ "_solid") =
        [{ name := meshName ++ "_solid_refined", typeId := "Part::Refine", mesh := none,
           shape := some (cenv.refine sol), baseFeature := none },
         { name := meshName ++ "_solid_simple", typeId := "Part::Feature", mesh := none,
           shape := some (cenv.refine sol), baseFeature := none },
         { name := meshName ++ "_Body", typeId := "PartDesign::Body", mesh := none,
           shape := some (cenv.refine sol), baseFeature := some (meshName ++ "_solid_simple") }] := by
      simp [removeObject, List.filter, bne, hCB, hDB, hEB]
    rw [r2]
    rw [removeObject_append, removeObject_of_getObject_none _ _ hfC]
    have r3 : removeObject
        [{ name := meshName ++ "_solid_refined", typeId := "Part::Refine", mesh := none,
           shape := some (cenv.refine sol), baseFeature := none },
         { name := meshName ++ "_solid_simple", typeId := "Part::Feature", mesh := none,
           shape := some (cenv.refine sol), baseFeature := none },
         { name := meshName ++ "_Body", typeId := "PartDesign::Body", mesh := none,
           shape := some (cenv.refine sol), baseFeature := some (meshName ++ "_solid_simple") }]
        (meshName ++ "_solid_refined") =
        [{ name := meshName ++ "_solid_simple", typeId := "Part::Feature", mesh := none,
           shape := some (cenv.refine sol), baseFeature := none },
         { name := meshName ++ "_Body", typeId := "PartDesign::Body", mesh := none,
           shape := some (cenv.refine sol), baseFeature := some (meshName ++ "_solid_simple") }] := by
      simp [removeObject, List.filter, bne, hDC, hEC]
    rw [r3]
    rw [removeObject_append]
    have r4 : removeObject
        [{ name := meshName ++ "_solid_simple", typeId := "Part::Feature", mesh := none,
           shape := some (cenv.refine sol), baseFeature := none },
         { name := meshName ++ "_Body", typeId := "PartDesign::Body", mesh := none,
           shape := some (cenv.refine sol), baseFeature := some (meshName ++ "_solid_simple") }]
        meshName =
        [{ name := meshName ++ "_solid_simple", typeId := "Part::Feature", mesh := none,
           shape := some (cenv.refine sol), baseFeature := none },
         { name := meshName ++ "_Body", typeId := "PartDesign::Body", mesh := none,
           shape := some (cenv.refine sol), baseFeature := some (meshName ++ "_solid_simple") }] := by
      simp [removeObject, List.filter, bne, hDbn, hEbn]
    rw [r4]
  have hout : convertSingleMesh cenv doc0 meshName base =
      { doc := removeObject (setMesh doc0 meshName (evaluateMeshAutomated cenv.env m).2)
          meshName ++
          [{ name := meshName ++ "_solid_simple", typeId := "Part::Feature", mesh := none,
             shape := some (cenv.refine sol), baseFeature := none },
           { name := meshName ++ "_Body", typeId := "PartDesign::Body", mesh := none,
             shape := some (cenv.refine sol), baseFeature := some (meshName ++ "_solid_simple") }],
        success := true, bodyName := some (meshName ++ "_Body"),
        txns := endTxn (if base then [] else [Txn.opened]) base Txn.committed } := by
    rw [convertSingleMesh_proceed cenv doc0 meshName base o m hobj hmesh hev]
    unfold convertProceed
    simp only [hshape, hsolid, hvalid, if_true]
    rw [hstep]
  rw [hout]
  have hbodies : bodyCount
      [({ name := meshName ++ "_solid_simple", typeId := "Part::Feature", mesh := none,
            shape := some (cenv.refine sol), baseFeature := none } : Obj),
       { name := meshName ++ "_Body", typeId := "PartDesign::Body", mesh := none,
           shape := some (cenv.refine sol),
           baseFeature := some (meshName ++ "_solid_simple") }] = 1 := by
    have hft : (("Part::Feature" : String) == "PartDesign::Body") = false := by decide
    simp [bodyCount, List.filter, hft]
  refine ⟨rfl, rfl, ?_, ?_, ?_, ?_, ?_, ?_, ?_, ?_, ?_⟩
  · rw [getObject_append, getObject_removeObject_none _ _ _ hfE]
    simp [getObject, List.find?, hDE]
  · rw [getObject_append, getObject_removeObject_none _ _ _ hfD]
    simp [getObject, List.find?]
  · rw [getObject_append, getObject_removeObject_none _ _ _ hfA]
    simp [getObject, List.find?, hDA, hEA]
  · rw [getObject_append, getObject_removeObject_none _ _ _ hfB]
    simp [getObject, List.find?, hDB, hEB]
  · rw [getObject_append, getObject_removeObject_none _ _ _ hfC]
    simp [getObject, List.find?, hDC, hEC]
  · rw [getObject_append, getObject_removeObject_self]
    simp [getObject, List.find?, hDbn, hEbn]
  · rw [bodyCount_append, hbodies]
    rw [bodyCount_removeObject_of_not_body _ _
      (notBody_setMesh doc0 meshName (evaluateMeshAutomated cenv.env m).2 meshName hnotbody)]
    rw [bodyCount_setMesh]
  · intro hb; subst hb; rfl
  · intro hb; subst hb; rfl

/-- Conversion environment in which every geometry call succeeds. -/
def cenvOk : ConvEnv :=
  { env := envId, makeShape := fun _ _ => Except.ok 1, makeSolid := fun _ => Except.ok 2,
    refine := id, refinedValid := fun _ => true, removeRaises := fun _ => false }

def meshObjC6 : Obj :=
  { name := "M", typeId := "Mesh::Feature", mesh := some cleanMesh0,
    shape := none, baseFeature := none }

def docC6 : Doc := [meshObjC6]

/-- Witness for C6 at a concrete clean mesh and all-succeeding kernel. -/
theorem C6_witness :
    (convertSingleMesh cenvOk docC6 "M" false).success = true ∧
    (convertSingleMesh cenvOk docC6 "M" false).bodyName = some ("M" ++ "_Body") ∧
    getObject (convertSingleMesh cenvOk docC6 "M" false).doc "M" = none ∧
    bodyCount (convertSingleMesh cenvOk docC6 "M" false).doc = bodyCount docC6 + 1 ∧
    (convertSingleMesh cenvOk docC6 "M" false).txns = [Txn.opened, Txn.committed] := by
  have h := C6_successful_conversion cenvOk docC6 "M" false meshObjC6 cleanMesh0 1 2
    (by decide) (by decide) (by decide) rfl rfl rfl (by decide) (by decide)
  exact ⟨h.1, h.2.1, h.2.2.2.2.2.2.2.1, h.2.2.2.2.2.2.2.2.1, h.2.2.2.2.2.2.2.2.2.1 rfl⟩

/-! ### C7: per-item classification by document cross-check -/

/-- C7: each loop iteration converts with the caller-owns-transaction flag
set and classifies by cross-checking the document rather than the signal
alone: a success is counted converted with its (original, body) pair; a
non-success is counted skipped precisely when an object with the original
name still exists and is mesh-typed, and failed otherwise; and the batch
loop processes the name list in order, one `processOne` at a time. -/
theorem C7_orchestrator_classification (cenv : ConvEnv) (st : Doc × RunResults)
    (name : String) :
    ((convertSingleMesh cenv st.1 name true).success = true →
      processOne cenv st name =
        ((convertSingleMesh cenv st.1 name true).doc,
         { st.2 with
           converted := st.2.converted + 1,
           convertedObjects := st.2.convertedObjects ++
             [(name, (convertSingleMesh cenv st.1 name true).bodyName)] })) ∧
    ((convertSingleMesh cenv st.1 name true).success = false →
      (∀ o : Obj, getObject (convertSingleMesh cenv st.1 name true).doc name = some o →
        o.typeId = "Mesh::Feature" →
        processOne cenv st name =
          ((convertSingleMesh cenv st.1 name true).doc,
           { st.2 with
             skipped := st.2.skipped + 1,
             skippedObjects := st.2.skippedObjects ++ [name] })) ∧
      ((∀ o : Obj, getObject (convertSingleMesh cenv st.1 name true).doc name = some o →
          o.typeId ≠ "Mesh::Feature") →
        processOne cenv st name =
          ((convertSingleMesh cenv st.1 name true).doc,
           { st.2 with
             failed := st.2.failed + 1,
             failedObjects := st.2.failedObjects ++ [name] }))) ∧
    (∀ benv : BatchEnv, ∀ i : Nat, ∀ doc res rest, benv.stepRaises i = false →
      batchLoop benv i doc res (name :: rest) =
        batchLoop benv (i + 1) (processOne (benv.step i) (doc, res) name).1
          (processOne (benv.step i) (doc, res) name).2 rest) := by
  refine ⟨?_, ?_, ?_⟩
  · intro hsucc
    unfold processOne
    simp [hsucc]
  · intro hfailed
    constructor
    · intro o hget htype
      unfold processOne
      simp only [hfailed, Bool.false_eq_true, if_false, hget]
      simp [htype]
    · intro hno
      unfold processOne
      simp only [hfailed, Bool.false_eq_true, if_false]
      cases hget : getObject (convertSingleMesh cenv st.1 name true).doc name with
      | none => simp only [hget]
      | some o =>
        have := hno o hget
        simp only [hget]
        simp [this]
  · intro benv i doc res rest hr
    simp only [batchLoop, hr, Bool.false_eq_true, if_false]

/-- A conversion environment whose evaluation queries raise, so every
conversion is declined with the mesh left in place. -/
def cenvCancel : ConvEnv :=
  { cenvOk with env := { envId with queryRaises := true } }

/-- Witness for C7: a declined conversion whose mesh object survives
mesh-typed is counted skipped. -/
theorem C7_witness :
    processOne cenvCancel (docC6, zeroResults) "M" =
      ((convertSingleMesh cenvCancel docC6 "M" true).doc,
       { (docC6, zeroResults).2 with
         skipped := (docC6, zeroResults).2.skipped + 1,
         skippedObjects := (docC6, zeroResults).2.skippedObjects ++ ["M"] }) := by
  have h := (C7_orchestrator_classification cenvCancel (docC6, zeroResults) "M").2.1 (by decide)
  exact h.1
    { name := "M", typeId := "Mesh::Feature", mesh := some cleanMesh0,
      shape := none, baseFeature := none }
    (by decide) rfl

/-! ### C8: batch-level all-or-nothing transaction -/

theorem batchLoop_ok_iff (benv : BatchEnv) (l : List String) :
    ∀ (i : Nat) (doc : Doc) (res : RunResults),
      (∃ dr, batchLoop benv i doc res l = Except.ok dr) ↔
        (∀ j, i ≤ j → j < i + l.length → benv.stepRaises j = false) := by
  induction l with
  | nil =>
    intro i doc res
    constructor
    · intro _ j hij hj
      simp at hj
      omega
    · intro _
      exact ⟨(doc, res), rfl⟩
  | cons n rest ih =>
    intro i doc res
    unfold batchLoop
    by_cases hr : benv.stepRaises i = true
    · simp only [hr, if_true]
      constructor
      · intro hex
        obtain ⟨dr, hdr⟩ := hex
        cases hdr
      · intro hall
        have := hall i (Nat.le_refl i) (by simp [List.length_cons])
        rw [hr] at this
        cases this
    · have hrx : benv.stepRaises i = false := by
        cases hb : benv.stepRaises i with
        | true => exact absurd hb hr
        | false => rfl
      simp only [hrx, Bool.false_eq_true, if_false]
      rw [ih (i + 1) (processOne (benv.step i) (doc, res) n).1
        (processOne (benv.step i) (doc, res) n).2]
      constructor
      · intro hall j hij hj
        rcases Nat.eq_or_lt_of_le hij with heq | hlt
        · rw [← heq]; exact hrx
        · exact hall j hlt (by simp at hj ⊢; omega)
      · intro hall j hij hj
        exact hall j (by omega) (by simp at hj ⊢; omega)

/-- C8: the master transaction is committed only when every item of the
loop ran without an unhandled exception, and any unhandled exception makes
the run abort the master transaction, never commit it, and return None. -/
theorem C8_batch_transaction (benv : BatchEnv) (doc : Doc) :
    (Txn.committed ∈ (convertAllDocumentMeshes benv (some doc)).txns →
      ∀ j, j < (findAllMeshObjects doc).length → benv.stepRaises j = false) ∧
    ((∃ j, j < (findAllMeshObjects doc).length ∧ benv.stepRaises j = true) →
      (convertAllDocumentMeshes benv (some doc)).results = none ∧
      (convertAllDocumentMeshes benv (some doc)).txns = [Txn.opened, Txn.aborted] ∧
      Txn.committed ∉ (convertAllDocumentMeshes benv (some doc)).txns) := by
  unfold convertAllDocumentMeshes
  by_cases he : (findAllMeshObjects doc).isEmpty = true
  · simp only [he, if_true]
    constructor
    · intro hc
      simp at hc
    · rintro ⟨j, hj, _⟩
      rw [List.isEmpty_iff.mp he] at hj
      simp at hj
  · simp only [he, Bool.false_eq_true, if_false]
    cases hbl : batchLoop benv 0 doc
        { totalMeshes := (findAllMeshObjects doc).length, converted := 0, failed := 0,
          skipped := 0, convertedObjects := [], failedObjects := [], skippedObjects := [] }
        ((findAllMeshObjects doc).map Obj.name) with
    | error d2 =>
      simp only [hbl]
      constructor
      · intro hc
        simp at hc
      · intro _
        exact ⟨by simp, by simp, by decide⟩
    | ok dr =>
      simp only [hbl]
      have hall := (batchLoop_ok_iff benv ((findAllMeshObjects doc).map Obj.name) 0 doc
        { totalMeshes := (findAllMeshObjects doc).length, converted := 0, failed := 0,
          skipped := 0, convertedObjects := [], failedObjects := [], skippedObjects := [] }).mp
        ⟨dr, hbl⟩
      constructor
      · intro _ j hj
        exact hall j (Nat.zero_le j) (by simpa [List.length_map] using hj)
      · rintro ⟨j, hj, hraise⟩
        have := hall j (Nat.zero_le j) (by simpa [List.length_map] using hj)
        rw [hraise] at this
        cases this

def benvCancel : BatchEnv :=
  { step := fun _ => cenvCancel, stepRaises := fun _ => false }

/-- A batch environment whose first item hits an unhandled exception. -/
def benvRaise : BatchEnv :=
  { step := fun _ => cenvOk, stepRaises := fun _ => true }

/-- Witness for C8 at a one-mesh document whose first item raises. -/
theorem C8_witness :
    (convertAllDocumentMeshes benvRaise (some docC6)).results = none ∧
    (convertAllDocumentMeshes benvRaise (some docC6)).txns = [Txn.opened, Txn.aborted] ∧
    Txn.committed ∉ (convertAllDocumentMeshes benvRaise (some docC6)).txns :=
  (C8_batch_transaction benvRaise docC6).2 ⟨0, by decide, rfl⟩

/-! ### C10: None versus zero-count summary -/

/-- C10: the batch entry point returns None exactly when there is no
active document or an unhandled exception aborted the batch; an existing
document with no mesh entities instead yields the all-zero summary, so a
caller must distinguish None (error) from a zero-count summary (empty but
successful run). -/
theorem C10_return_contract (benv : BatchEnv) (activeDoc : Option Doc) :
    ((convertAllDocumentMeshes benv activeDoc).results = none ↔
      (activeDoc = none ∨ ∃ doc, activeDoc = some doc ∧ findAllMeshObjects doc ≠ [] ∧
        ∃ j, j < (findAllMeshObjects doc).length ∧ benv.stepRaises j = true)) ∧
    (∀ doc, activeDoc = some doc → findAllMeshObjects doc = [] →
      (convertAllDocumentMeshes benv activeDoc).results = some zeroResults) := by
  cases activeDoc with
  | none =>
    constructor
    · constructor
      · intro _
        exact Or.inl rfl
      · intro _
        rfl
    · intro doc hc
      cases hc
  | some doc =>
    constructor
    · unfold convertAllDocumentMeshes
      by_cases he : (findAllMeshObjects doc).isEmpty = true
      · simp only [he, if_true]
        constructor
        · intro hc
          cases hc
        · rintro (hc | ⟨doc2, hd2, hne, _⟩)
          · cases hc
          · cases hd2
            exact absurd (List.isEmpty_iff.mp he) hne
      · cases hbl : batchLoop benv 0 doc
            { totalMeshes := (findAllMeshObjects doc).length, converted := 0, failed := 0,
              skipped := 0, convertedObjects := [], failedObjects := [], skippedObjects := [] }
            ((findAllMeshObjects doc).map Obj.name) with
        | ok dr =>
          simp only [he, Bool.false_eq_true, if_false, hbl]
          constructor
          · intro hc
            cases hc
          · rintro (hc | ⟨doc2, hd2, hne, j, hj, hraise⟩)
            · cases hc
            · cases hd2
              have hall := (batchLoop_ok_iff benv ((findAllMeshObjects doc).map Obj.name) 0 doc
                { totalMeshes := (findAllMeshObjects doc).length, converted := 0, failed := 0,
                  skipped := 0, convertedObjects := [], failedObjects := [],
                  skippedObjects := [] }).mp ⟨dr, hbl⟩
              have := hall j (Nat.zero_le j) (by simpa [List.length_map] using hj)
              rw [hraise] at this
              cases this
        | error d2 =>
          simp only [he, Bool.false_eq_true, if_false, hbl]
          constructor
          · intro _
            refine Or.inr ⟨doc, rfl, fun hnil => he (List.isEmpty_iff.mpr hnil), ?_⟩
            have hnex : ¬ ∀ j, 0 ≤ j →
                j < 0 + ((findAllMeshObjects doc).map Obj.name).length →
                benv.stepRaises j = false := by
              intro hall
              obtain ⟨dr, hdr⟩ := (batchLoop_ok_iff benv
                ((findAllMeshObjects doc).map Obj.name) 0 doc
                { totalMeshes := (findAllMeshObjects doc).length, converted := 0, failed := 0,
                  skipped := 0, convertedObjects := [], failedObjects := [],
                  skippedObjects := [] }).mpr hall
              rw [hbl] at hdr
              cases hdr
            push_neg at hnex
            obtain ⟨j, _, hj, hraise⟩ := hnex
            refine ⟨j, by simpa [List.length_map] using hj, ?_⟩
            cases hb : benv.stepRaises j with
            | true => rfl
            | false => exact absurd hb hraise
          · intro _
            trivial
    · intro doc2 heq hnil
      cases heq
      unfold convertAllDocumentMeshes
      simp [hnil]

def benvEmptyW : BatchEnv :=
  { step := fun _ => cenvOk, stepRaises := fun _ => false }

/-- Witness for C10: no active document yields None; an empty document
yields the zero-count summary. -/
theorem C10_witness :
    (convertAllDocumentMeshes benvEmptyW none).results = none ∧
    (convertAllDocumentMeshes benvEmptyW (some [])).results = some zeroResults := by
  constructor
  · exact (C10_return_contract benvEmptyW none).1.mpr (Or.inl rfl)
  · exact (C10_return_contract benvEmptyW (some [])).2 [] rfl rfl
